import Mathlib

/-!
Shallow embedding of the iceberg-rest-catalog REST handler layer
(api/handlers/models.go, namespaces.go, tables.go, transaction.go and the
error-model file).  Go strings are modelled as lists of characters so that
the reserved namespace separator byte can be reasoned about directly;
catalog results and other external collaborator values (schemas, partition
specs, sort orders, table handles, follower catalogs) are passed in as
oracle parameters, mirroring the fact that the catalog is an external
interface.  Each handler is a pure function from its parsed request (the
post-binding state) and the catalog outcome to the ordered list of JSON
writes it performs on the response, paired with the list of catalog calls
it makes.  A response consists of the whole ordered write list: the HTTP
status actually sent is the status of the first write (later writes can
only append body bytes).
-/

/-- Go string, modelled as its character list. -/
abbrev Str := List Char

/-- The reserved namespace separator byte, `models.go:10`: `"\x1F"`. -/
def namespaceSeparator : Char := Char.ofNat 0x1F

/-- `strings.Split(s, namespaceSeparator)` as used by every handler that
decodes a `:namespace` path parameter or `parent` query parameter. -/
def splitNamespace (s : Str) : List Str :=
  s.splitOn namespaceSeparator

/-- Modelled from the spec: the Identifier Codec `Encode` operation
("joins parts with the reserved separator").  The server source under
`src/` only ever decodes (splits); the joining direction of the codec is
performed by clients and is not present in `src/`, so it is taken from the
spec wording. -/
def encodeNamespace (parts : List Str) : Str :=
  [namespaceSeparator].intercalate parts

/-- Error body model from the handlers error file (`ErrorModel`). -/
structure ErrorModel where
  Message : String
  Type' : String
  Code : Nat
deriving Repr, DecidableEq

def ErrInternalServerError : ErrorModel :=
  { Message := "Internal Server Error", Type' := "InternalServerError", Code := 500 }

def ErrBadRequest : ErrorModel :=
  { Message := "Malformed request", Type' := "BadRequestException", Code := 400 }

def ErrNamespaceNotFound : ErrorModel :=
  { Message := "The given namespace does not exist", Type' := "NoSuchNamespaceException", Code := 404 }

def ErrNamespaceAlreadyExists : ErrorModel :=
  { Message := "The given namespace already exists", Type' := "AlreadyExistsException", Code := 409 }

def ErrNamespaceNotEmpty : ErrorModel :=
  { Message := "The given namespace is not empty", Type' := "NamespaceNotEmptyException", Code := 409 }

def ErrUnprocessableEntityDuplicateKey : ErrorModel :=
  { Message := "The request cannot be processed as there is a key present multiple times",
    Type' := "UnprocessableEntityException", Code := 422 }

def ErrNotImplemented : ErrorModel :=
  { Message := "Not Implemented", Type' := "NotImplementedException", Code := 501 }

def ErrTableAlreadyExists : ErrorModel :=
  { Message := "The given table already exists", Type' := "AlreadyExistsException", Code := 409 }

def ErrTableNotFound : ErrorModel :=
  { Message := "The given table does not exist", Type' := "NoSuchTableException", Code := 404 }

/-- A table identifier as serialized in responses (`models.go` `Identifier`). -/
structure Identifier where
  Namespace : List Str
  Name : Str
deriving Repr, DecidableEq

/-- The JSON payload of a single `c.JSON` / `c.Status` call.  Payloads
that belong to external collaborators (marshalled table metadata) are
abstracted to a tag, since their bytes come verbatim from the catalog. -/
inductive Body where
  | err (e : ErrorModel)
  | listTablesResp (identifiers : List Identifier)
  | listNamespacesResp (namespaces : List (List Str)) (nextPageToken : Option String)
  | updatePropsResp (updated removed missing : List String)
  | loadTableResp
  | empty
deriving Repr, DecidableEq

/-- One write performed on the gin response: the status passed to `c.JSON`
(or `c.Status`) and the body. -/
structure Write where
  status : Nat
  body : Body
deriving Repr, DecidableEq

/-- The HTTP status actually sent on the wire: gin commits the status of
the first write; later writes only append body bytes. -/
def sentStatus (writes : List Write) : Option Nat :=
  writes.head?.map Write.status

/-- Catalog-level failure, as seen through the `errors.Is` sentinel tests
the handlers perform.  A single error value may match several sentinels. -/
structure CatErr where
  isNoSuchNamespace : Bool
  isNoSuchTable : Bool
  isTableAlreadyExists : Bool
deriving Repr, DecidableEq

/-- A call made to the underlying catalog interface by one of the
non-transaction handlers (arguments recorded as the handler passes them). -/
inductive CatalogCall where
  | listNamespaces (parent : List Str)
  | updateNamespaceProperties (ns : List Str) (removals : List String)
      (updates : List (String × String))
  | listTables (ns : List Str)
  | loadTable (identifier : List Str)
  | dropTable (identifier : List Str)
deriving Repr, DecidableEq

/-- `catalog.PropertiesUpdateSummary`. -/
structure PropertiesUpdateSummary where
  Updated : List String
  Removed : List String
  Missing : List String
deriving Repr, DecidableEq

/-- Go `map[string]string` membership test, on an association-list model. -/
def containsKey (m : List (String × String)) (k : String) : Bool :=
  m.any (fun p => p.1 == k)

/-- `UpdateProperties` (namespaces.go:209-265), from the post-binding
state: the removals/updates duplicate-key precondition runs before any
catalog call; only then is the namespace decoded and the catalog invoked. -/
def UpdateProperties (nsParam : Str) (removals : List String)
    (updates : List (String × String))
    (updateResult : Except CatErr PropertiesUpdateSummary) :
    List Write × List CatalogCall :=
  if removals.any (fun removal => containsKey updates removal) then
    ([⟨422, Body.err ErrUnprocessableEntityDuplicateKey⟩], [])
  else
    let ns := splitNamespace nsParam
    let call := CatalogCall.updateNamespaceProperties ns removals updates
    match updateResult with
    | Except.error e =>
      if e.isNoSuchNamespace then ([⟨404, Body.err ErrNamespaceNotFound⟩], [call])
      else ([⟨500, Body.err ErrInternalServerError⟩], [call])
    | Except.ok s =>
      ([⟨200, Body.updatePropsResp s.Updated s.Removed s.Missing⟩], [call])

/-- `ListNamespaces` (namespaces.go:12-60), from the post-binding state.
`pageToken` and `pageSize` are bound from the query but never used by the
handler body; the namespace-not-found branch writes its 404 body and then
falls through to the internal-error write (namespaces.go:45-53 has no
`return` between the two `c.JSON` calls). -/
def ListNamespaces (parent : Option Str) (pageToken : Option String)
    (pageSize : Option Nat)
    (listResult : Except CatErr (List (List Str))) :
    List Write × List CatalogCall :=
  let par := match parent with
    | some p => splitNamespace p
    | none => []
  let call := CatalogCall.listNamespaces par
  match listResult with
  | Except.error e =>
    if e.isNoSuchNamespace then
      ([⟨404, Body.err ErrNamespaceNotFound⟩, ⟨500, Body.err ErrInternalServerError⟩],
       [call])
    else
      ([⟨500, Body.err ErrInternalServerError⟩], [call])
  | Except.ok nss =>
    ([⟨200, Body.listNamespacesResp nss none⟩], [call])

/-- `LoadTable` handler (tables.go:229-274): decode namespace, load, map
sentinels in source order (namespace first, then table), else 500; on
success respond 200 with the pass-through metadata payload. -/
def LoadTable {T : Type} (nsParam tableName : Str)
    (loadResult : Except CatErr T) : List Write × List CatalogCall :=
  let ns := splitNamespace nsParam
  let call := CatalogCall.loadTable (ns ++ [tableName])
  match loadResult with
  | Except.error e =>
    if e.isNoSuchNamespace then ([⟨404, Body.err ErrNamespaceNotFound⟩], [call])
    else if e.isNoSuchTable then ([⟨404, Body.err ErrTableNotFound⟩], [call])
    else ([⟨500, Body.err ErrInternalServerError⟩], [call])
  | Except.ok _ => ([⟨200, Body.loadTableResp⟩], [call])

/-- `DropTable` handler (tables.go:276-325): empty table name is rejected
with 400; a `purgeRequested=true` query is answered with
`http.StatusBadRequest` carrying the `ErrNotImplemented` body
(tables.go:296-302) without touching the catalog; otherwise the catalog
drop runs and its sentinels are mapped. -/
def DropTable (nsParam tableName : Str) (purgeRequested : String)
    (dropResult : Except CatErr Unit) : List Write × List CatalogCall :=
  let ns := splitNamespace nsParam
  if tableName.isEmpty then ([⟨400, Body.err ErrBadRequest⟩], [])
  else if purgeRequested == "true" then ([⟨400, Body.err ErrNotImplemented⟩], [])
  else
    let call := CatalogCall.dropTable (ns ++ [tableName])
    match dropResult with
    | Except.error e =>
      if e.isNoSuchNamespace then ([⟨404, Body.err ErrNamespaceNotFound⟩], [call])
      else if e.isNoSuchTable then ([⟨404, Body.err ErrTableNotFound⟩], [call])
      else ([⟨500, Body.err ErrInternalServerError⟩], [call])
    | Except.ok _ => ([⟨204, Body.empty⟩], [call])

/-- `catalog.CreateTableOpt` values as the handlers build them
(tables.go:95-107, transaction.go:71-83). -/
inductive CreateTableOpt (PS SO PR : Type) where
  | withLocation (loc : String)
  | withPartitionSpec (ps : PS)
  | withSortOrder (so : SO)
  | withProperties (pr : PR)
deriving Repr, DecidableEq

/-- `CreateTableRequest` (models.go:24-32); the schema, partition spec,
sort order and properties payloads are external collaborator types. -/
structure CreateTableRequest (S PS SO PR : Type) where
  Name : Str
  Schema : S
  Location : String
  PartitionSpec : Option PS
  WriteOrder : Option SO
  StageCreate : Bool
  Props : Option PR
deriving Repr, DecidableEq

/-- The option list a handler builds from a create-table request: location
(when non-empty), then partition spec, then write order, then properties,
in source order. -/
def buildOpts {S PS SO PR : Type} (req : CreateTableRequest S PS SO PR) :
    List (CreateTableOpt PS SO PR) :=
  (if req.Location ≠ "" then [CreateTableOpt.withLocation req.Location] else [])
    ++ (match req.PartitionSpec with
        | some ps => [CreateTableOpt.withPartitionSpec ps]
        | none => [])
    ++ (match req.WriteOrder with
        | some so => [CreateTableOpt.withSortOrder so]
        | none => [])
    ++ (match req.Props with
        | some pr => [CreateTableOpt.withProperties pr]
        | none => [])

/-- The create-table call of the non-transaction handler, with the
identifier, schema and options as passed to `catalog.CreateTable`. -/
inductive CreateCall (S PS SO PR : Type) where
  | createTable (identifier : List Str) (schema : S)
      (opts : List (CreateTableOpt PS SO PR))
deriving Repr, DecidableEq

/-- `CreateTable` handler (tables.go:68-143), from the post-binding state:
stage-create is answered 501 before any catalog call; otherwise the
catalog is called on the decoded namespace with the table name appended.
The table-already-exists branch writes its 409 body and then falls through
to the internal-error write (tables.go:117-121 has no `return`). -/
def CreateTable {S PS SO PR T : Type} (nsParam : Str)
    (req : CreateTableRequest S PS SO PR)
    (createResult : Except CatErr T) (marshalOk : Bool) :
    List Write × List (CreateCall S PS SO PR) :=
  let ns := splitNamespace nsParam
  if req.StageCreate then ([⟨501, Body.err ErrNotImplemented⟩], [])
  else
    let call := CreateCall.createTable (ns ++ [req.Name]) req.Schema (buildOpts req)
    match createResult with
    | Except.error e =>
      if e.isNoSuchNamespace then ([⟨404, Body.err ErrNamespaceNotFound⟩], [call])
      else if e.isTableAlreadyExists then
        ([⟨409, Body.err ErrTableAlreadyExists⟩, ⟨500, Body.err ErrInternalServerError⟩],
         [call])
      else ([⟨500, Body.err ErrInternalServerError⟩], [call])
    | Except.ok _ =>
      if marshalOk then ([⟨200, Body.loadTableResp⟩], [call])
      else ([⟨500, Body.err ErrInternalServerError⟩], [call])

/-- Outcome of the `ListTables` handler: either the loop ran to completion
and wrote its final 200 payload, or it panicked on
`table[:len(table)-1]` for an empty identifier, leaving only the writes
made up to that point on the response. -/
inductive ListTablesOutcome where
  | finished (writes : List Write)
  | panicked (writes : List Write)
deriving Repr, DecidableEq

/-- The `range`-over-`iter.Seq2` loop of `ListTables` (tables.go:50-61).
Each produced element carries an identifier value and an error flag.  On
an erroneous element the loop writes the 500 body but does not return
(tables.go:51-56), so iteration continues; every element, erroneous or not,
is then appended to the accumulated identifiers, which panics when the
carried identifier is empty. -/
def listTablesLoop : List (List Str × Bool) → List Write → List Identifier →
    ListTablesOutcome
  | [], writes, acc => ListTablesOutcome.finished (writes ++ [⟨200, Body.listTablesResp acc⟩])
  | (tbl, hasErr) :: rest, writes, acc =>
    let writes2 := if hasErr then writes ++ [⟨500, Body.err ErrInternalServerError⟩] else writes
    match tbl with
    | [] => ListTablesOutcome.panicked writes2
    | _ :: _ => listTablesLoop rest writes2
        (acc ++ [⟨tbl.dropLast, tbl.getLastD []⟩])

/-- `ListTables` handler (tables.go:38-66): decode the namespace, call the
catalog enumeration once, and run the consumption loop. -/
def ListTables (nsParam : Str) (seq : List (List Str × Bool)) :
    ListTablesOutcome × List CatalogCall :=
  let ns := splitNamespace nsParam
  (listTablesLoop seq [] [], [CatalogCall.listTables ns])

/-- `kv` (transaction.go:11-14). -/
structure KV where
  Key : String
  Value : String
deriving Repr, DecidableEq

/-- The inline create-table descriptor of the transaction endpoint
(transaction.go:51-54): an embedded `CreateTableRequest` plus a flat
`namespace` field that is used verbatim, never decoded. -/
structure TxCreateTable (S PS SO PR : Type) extends CreateTableRequest S PS SO PR where
  Namespace : Str
deriving Repr, DecidableEq

/-- `Identifier` of an update-table descriptor (models.go:14-17). -/
structure TxIdentifier where
  Namespace : List Str
  Name : Str
deriving Repr, DecidableEq

/-- `UpdateTableRequest` (models.go:40-44); requirement and update
payloads are external collaborator types. -/
structure UpdateTableRequest (U R : Type) where
  Identifier : TxIdentifier
  Requirements : List R
  Updates : List U
deriving Repr, DecidableEq

/-- One operation descriptor of the transaction batch
(transaction.go:50-57). -/
structure TxDescriptor (S PS SO PR U R : Type) where
  CreateTable : Option (TxCreateTable S PS SO PR)
  UpdateTable : Option (UpdateTableRequest U R)
  SetKVSidecar : Option KV
deriving Repr, DecidableEq

/-- `catalog.TransactionRequest` variants as the orchestrator builds them
(transaction.go:84-110); `T` is the external table-handle type returned by
`LoadTable`. -/
inductive TransactionRequest (S PS SO PR U R T : Type) where
  | createTableReq (identifier : List Str) (schema : S)
      (opts : List (CreateTableOpt PS SO PR))
  | commitTableReq (table : T) (updates : List U) (requirements : List R)
  | setKVSidecarReq (key value : String)
deriving Repr, DecidableEq

/-- A call the transaction endpoint makes on the catalog: the per-descriptor
table loads, and the single atomic submission with the follower list
(`F` is the external follower-catalog type). -/
inductive TxCall (S PS SO PR U R T F : Type) where
  | loadTable (identifier : List Str)
  | transaction (reqs : List (TransactionRequest S PS SO PR U R T))
      (followers : List F)
deriving Repr, DecidableEq

/-- Whether a transaction-endpoint catalog call is the atomic submission. -/
def TxCall.isSubmit {S PS SO PR U R T F : Type} :
    TxCall S PS SO PR U R T F → Bool
  | TxCall.transaction _ _ => true
  | TxCall.loadTable _ => false

/-- The identifier an update descriptor is loaded under
(transaction.go:91): `append(r.UpdateTable.Identifier.Namespace, ...Name)`. -/
def identOf {U R : Type} (ut : UpdateTableRequest U R) : List Str :=
  ut.Identifier.Namespace ++ [ut.Identifier.Name]

/-- The create-table request a descriptor contributes
(transaction.go:70-89): identifier `[namespace, name]` with the flat
namespace as a single component. -/
def createReqs {S PS SO PR U R T : Type} (r : TxDescriptor S PS SO PR U R) :
    List (TransactionRequest S PS SO PR U R T) :=
  match r.CreateTable with
  | some ct =>
    [TransactionRequest.createTableReq [ct.Namespace, ct.Name] ct.Schema
      (buildOpts ct.toCreateTableRequest)]
  | none => []

/-- The sidecar request a descriptor contributes (transaction.go:105-110). -/
def sidecarReqs {S PS SO PR U R T : Type} (r : TxDescriptor S PS SO PR U R) :
    List (TransactionRequest S PS SO PR U R T) :=
  match r.SetKVSidecar with
  | some k => [TransactionRequest.setKVSidecarReq k.Key k.Value]
  | none => []

/-- One iteration of the descriptor loop (transaction.go:69-111): append
the create request if present, then resolve an update descriptor through
`LoadTable` — failure aborts the whole handler with 500, before any
submission — then append the sidecar request if present.  Returns the
requests this descriptor contributes and the catalog calls it made, or the
calls made up to the failing load. -/
def descriptorStep {S PS SO PR U R T F : Type}
    (loadTable : List Str → Except Unit T) (r : TxDescriptor S PS SO PR U R) :
    Except (List (TxCall S PS SO PR U R T F))
      (List (TransactionRequest S PS SO PR U R T) × List (TxCall S PS SO PR U R T F)) :=
  match r.UpdateTable with
  | none => Except.ok (createReqs r ++ sidecarReqs r, [])
  | some ut =>
    let ident := identOf ut
    match loadTable ident with
    | Except.error _ => Except.error [TxCall.loadTable ident]
    | Except.ok t =>
      Except.ok
        (createReqs r ++ [TransactionRequest.commitTableReq t ut.Updates ut.Requirements]
           ++ sidecarReqs r,
         [TxCall.loadTable ident])

/-- The whole descriptor loop: requests accumulate in input order; the
first failing load aborts with the calls made so far. -/
def transactionLoop {S PS SO PR U R T F : Type}
    (loadTable : List Str → Except Unit T) :
    List (TxDescriptor S PS SO PR U R) →
    Except (List (TxCall S PS SO PR U R T F))
      (List (TransactionRequest S PS SO PR U R T) × List (TxCall S PS SO PR U R T F))
  | [] => Except.ok ([], [])
  | r :: rest =>
    match descriptorStep loadTable r with
    | Except.error cs => Except.error cs
    | Except.ok (rs, cs) =>
      match transactionLoop loadTable rest with
      | Except.error cs2 => Except.error (cs ++ cs2)
      | Except.ok (rs2, cs2) => Except.ok (rs ++ rs2, cs ++ cs2)

/-- `Transaction` handler (transaction.go:59-121), from the post-binding
state: build the request batch from the descriptor list; a failed load
answers 500 with no submission; otherwise the batch is submitted in one
`catalog.Transaction` call together with the registered followers, and the
outcome decides between 500 and a bare 200 status. -/
def Transaction {S PS SO PR U R T F : Type}
    (loadTable : List Str → Except Unit T)
    (txResult : List (TransactionRequest S PS SO PR U R T) → Except Unit Unit)
    (followers : List F) (descriptors : List (TxDescriptor S PS SO PR U R)) :
    List Write × List (TxCall S PS SO PR U R T F) :=
  match transactionLoop loadTable descriptors with
  | Except.error calls => ([⟨500, Body.err ErrInternalServerError⟩], calls)
  | Except.ok (reqs, calls) =>
    match txResult reqs with
    | Except.error _ =>
      ([⟨500, Body.err ErrInternalServerError⟩],
       calls ++ [TxCall.transaction reqs followers])
    | Except.ok _ =>
      ([⟨200, Body.empty⟩], calls ++ [TxCall.transaction reqs followers])

/-- C7 (counterexample): the round-trip law fails on the empty component
sequence — `Decode(Encode([]))` is `[""]`, not `[]`, because splitting the
empty flat string yields one empty component. -/
theorem c7_empty_sequence_fails : splitNamespace (encodeNamespace []) ≠ [] := by
  decide

/-- C7 (amended): for every NON-EMPTY sequence of non-empty components
none of which contains the reserved separator, `Decode(Encode(parts))`
gives back `parts`; and for every flat string, `Encode(Decode(s))` gives
back `s`. -/
theorem c7_round_trip :
    (∀ parts : List Str, parts ≠ [] →
      (∀ p ∈ parts, p ≠ [] ∧ namespaceSeparator ∉ p) →
      splitNamespace (encodeNamespace parts) = parts)
    ∧ (∀ s : Str, encodeNamespace (splitNamespace s) = s) := by
  constructor
  · intro parts hne h
    exact List.splitOn_intercalate parts namespaceSeparator (fun l hl => (h l hl).2) hne
  · intro s
    exact List.intercalate_splitOn s namespaceSeparator

/-- C7 witness: the round trip evaluated on concrete inputs. -/
theorem c7_round_trip_witness :
    splitNamespace (encodeNamespace [['a'], ['b']]) = [['a'], ['b']]
    ∧ encodeNamespace (splitNamespace ['x']) = ['x'] :=
  ⟨c7_round_trip.1 [['a'], ['b']] (by decide) (by decide), c7_round_trip.2 ['x']⟩

/-- C3: whenever some key occurs both in the removals list and in the
updates map, `UpdateProperties` answers 422 with the duplicate-key body
and makes no catalog call. -/
theorem c3_duplicate_key_rejected (nsParam : Str) (removals : List String)
    (updates : List (String × String))
    (updateResult : Except CatErr PropertiesUpdateSummary)
    (h : ∃ k ∈ removals, containsKey updates k = true) :
    UpdateProperties nsParam removals updates updateResult
      = ([⟨422, Body.err ErrUnprocessableEntityDuplicateKey⟩], []) := by
  have hany : removals.any (fun removal => containsKey updates removal) = true := by
    rcases h with ⟨k, hk, hck⟩
    exact List.any_eq_true.mpr ⟨k, hk, hck⟩
  simp [UpdateProperties, hany]

/-- C3 witness: a removal key that is also an update key. -/
theorem c3_duplicate_key_witness :
    UpdateProperties ['n'] ["a"] [("a", "1")] (Except.ok ⟨[], [], []⟩)
      = ([⟨422, Body.err ErrUnprocessableEntityDuplicateKey⟩], []) :=
  c3_duplicate_key_rejected ['n'] ["a"] [("a", "1")] (Except.ok ⟨[], [], []⟩)
    (by decide)

/-- C8: when a table load fails, the namespace-not-found sentinel is
tested first, so every failure matching it is reported as the 404
namespace body — also when the table sentinel matches as well. -/
theorem c8_namespace_sentinel_first {T : Type} (nsParam tableName : Str)
    (e : CatErr) (h : e.isNoSuchNamespace = true) :
    (@LoadTable T nsParam tableName (Except.error e)).1
      = [⟨404, Body.err ErrNamespaceNotFound⟩] := by
  simp [LoadTable, h]

/-- C8 witness: an error matching both sentinels maps to the namespace
body. -/
theorem c8_namespace_sentinel_first_witness :
    (@LoadTable Unit ['n'] ['t'] (Except.error ⟨true, true, false⟩)).1
      = [⟨404, Body.err ErrNamespaceNotFound⟩] :=
  c8_namespace_sentinel_first ['n'] ['t'] ⟨true, true, false⟩ rfl

/-- C5: evaluation at the failing input.  A purge-requested drop responds
with status 400 — not 501 — while carrying the NotImplemented body whose
own code field is 501; stage-create on the create handler does respond
501.  Neither path calls the catalog. -/
theorem c5_purge_status_is_400 :
    DropTable ['n'] ['t'] "true" (Except.ok ())
      = ([⟨400, Body.err ErrNotImplemented⟩], [])
    ∧ @CreateTable Nat Unit Unit Unit Nat ['n']
        ⟨['t'], 0, "", none, none, true, none⟩ (Except.ok 0) true
      = ([⟨501, Body.err ErrNotImplemented⟩], [])
    ∧ ErrNotImplemented.Code = 501 := by
  exact ⟨rfl, rfl, rfl⟩

/-- C6: evaluation at the failing input, plus the general shape.  The
handler returns every namespace the catalog yields in a single 200
response with a null next-page-token, for any supplied pageSize — here two
namespaces are returned although pageSize is 1. -/
theorem c6_pageSize_ignored :
    (ListNamespaces none none (some 1) (Except.ok [[['a']], [['b']]])).1
      = [⟨200, Body.listNamespacesResp [[['a']], [['b']]] none⟩]
    ∧ ∀ (parent : Option Str) (pageToken : Option String) (pageSize : Option Nat)
        (nss : List (List Str)),
        (ListNamespaces parent pageToken pageSize (Except.ok nss)).1
          = [⟨200, Body.listNamespacesResp nss none⟩] := by
  refine ⟨rfl, ?_⟩
  intro parent pageToken pageSize nss
  cases parent <;> rfl

/-- C4: evaluation at the failing input.  On the namespace-not-found path
of `ListNamespaces` the handler performs two JSON writes on one response —
the 404 body and then the 500 body — so the sent status is 404 while the
second body's code field is 500. -/
theorem c4_double_error_write :
    (ListNamespaces none none none (Except.error ⟨true, false, false⟩)).1
      = [⟨404, Body.err ErrNamespaceNotFound⟩, ⟨500, Body.err ErrInternalServerError⟩]
    ∧ sentStatus
        (ListNamespaces none none none (Except.error ⟨true, false, false⟩)).1
        = some 404
    ∧ ErrInternalServerError.Code ≠ 404 := by
  exact ⟨rfl, rfl, by decide⟩

/-- C2: evaluation at the failing input.  With an enumeration whose second
element carries an error, the handler writes the 500 body, keeps
consuming, and finally appends the 200 payload containing the identifiers
enumerated before (and after) the error onto the same response. -/
theorem c2_enumeration_error_not_stopped :
    (ListTables ['n']
        [([['n'], ['a']], false), ([['n'], ['b']], true), ([['n'], ['c']], false)]).1
      = ListTablesOutcome.finished
          [⟨500, Body.err ErrInternalServerError⟩,
           ⟨200, Body.listTablesResp
              [⟨[['n']], ['a']⟩, ⟨[['n']], ['b']⟩, ⟨[['n']], ['c']⟩]⟩] := by
  rfl

/-- C9: the transaction endpoint uses a create descriptor's namespace
field verbatim as a single identifier component — the identifier is always
the two-component `[namespace, name]` — while the non-transaction create
handler decodes the namespace path segment into its components before
appending the table name: on the flat namespace `"a\x1Fb"` the former
submits the identifier `["a\x1Fb", name]` and the latter calls the catalog
with `["a", "b", name]`. -/
theorem c9_transaction_namespace_verbatim :
    (∀ {S PS SO PR U R T F : Type} (loadTable : List Str → Except Unit T)
        (txResult : List (TransactionRequest S PS SO PR U R T) → Except Unit Unit)
        (followers : List F) (ct : TxCreateTable S PS SO PR),
      (Transaction loadTable txResult followers [⟨some ct, none, none⟩]).2.filter
          TxCall.isSubmit
        = [TxCall.transaction
            [TransactionRequest.createTableReq [ct.Namespace, ct.Name] ct.Schema
              (buildOpts ct.toCreateTableRequest)] followers])
    ∧ (Transaction (fun _ => Except.ok ()) (fun _ => Except.ok ())
          ([] : List Unit)
          ([⟨some ⟨⟨['t'], (0 : Nat), "", none, none, false, none⟩,
              ['a', namespaceSeparator, 'b']⟩, none, none⟩] :
            List (TxDescriptor Nat Unit Unit Unit Unit Unit))).2
        = [TxCall.transaction
            [TransactionRequest.createTableReq [['a', namespaceSeparator, 'b'], ['t']]
              0 []] []]
    ∧ (@CreateTable Nat Unit Unit Unit Unit ['a', namespaceSeparator, 'b']
          ⟨['t'], 0, "", none, none, false, none⟩ (Except.ok ()) true).2
        = [CreateCall.createTable [['a'], ['b'], ['t']] 0 []] := by
  refine ⟨?_, rfl, rfl⟩
  intro S PS SO PR U R T F loadTable txResult followers ct
  cases h : txResult [TransactionRequest.createTableReq [ct.Namespace, ct.Name]
      ct.Schema (buildOpts ct.toCreateTableRequest)] <;>
    simp [Transaction, transactionLoop, descriptorStep, createReqs, sidecarReqs, h,
      TxCall.isSubmit]

/-- The descriptor loop on a single descriptor, under an always-succeeding
load oracle: the contributed requests are the create request, then the
commit request, then the sidecar request, each present exactly when the
corresponding field is non-null. -/
theorem transactionLoop_single {S PS SO PR U R T F : Type}
    (ct : Option (TxCreateTable S PS SO PR)) (ut : Option (UpdateTableRequest U R))
    (kv : Option KV) (tval : T) :
    transactionLoop (fun _ => Except.ok tval) [⟨ct, ut, kv⟩]
      = Except.ok
          ((ct.map (fun c => TransactionRequest.createTableReq [c.Namespace, c.Name]
              c.Schema (buildOpts c.toCreateTableRequest))).toList
            ++ (ut.map (fun u => TransactionRequest.commitTableReq tval u.Updates
                u.Requirements)).toList
            ++ (kv.map (fun k => TransactionRequest.setKVSidecarReq k.Key k.Value)).toList,
           (ut.map (fun u =>
             (TxCall.loadTable (identOf u) : TxCall S PS SO PR U R T F))).toList) := by
  cases ct <;> cases ut <;> cases kv <;>
    simp [transactionLoop, descriptorStep, createReqs, sidecarReqs]

/-- When the descriptor loop succeeds and made no submission call of its
own, the handler submits the built batch in exactly one
`catalog.Transaction` call with the followers, and does not answer 400,
whatever the submission outcome. -/
theorem Transaction_submits_once {S PS SO PR U R T F : Type}
    (loadTable : List Str → Except Unit T)
    (txResult : List (TransactionRequest S PS SO PR U R T) → Except Unit Unit)
    (followers : List F) (descriptors : List (TxDescriptor S PS SO PR U R))
    (reqs : List (TransactionRequest S PS SO PR U R T))
    (calls : List (TxCall S PS SO PR U R T F))
    (hloop : transactionLoop loadTable descriptors = Except.ok (reqs, calls))
    (hcalls : calls.filter TxCall.isSubmit = []) :
    ((Transaction loadTable txResult followers descriptors).2.filter TxCall.isSubmit
      = [TxCall.transaction reqs followers])
    ∧ sentStatus (Transaction loadTable txResult followers descriptors).1 ≠ some 400 := by
  unfold Transaction
  rw [hloop]
  cases h : txResult reqs <;>
    simp [h, List.filter_append, hcalls, TxCall.isSubmit, sentStatus]

/-- C10: a descriptor with more than one operation field set is not
rejected: the handler contributes one request per non-null field, in the
fixed order create-table, update-table, sidecar, submits them in one
batch with the followers, and never answers 400. -/
theorem c10_multi_field_descriptor {S PS SO PR U R T F : Type}
    (ct : Option (TxCreateTable S PS SO PR)) (ut : Option (UpdateTableRequest U R))
    (kv : Option KV) (tval : T)
    (txResult : List (TransactionRequest S PS SO PR U R T) → Except Unit Unit)
    (followers : List F) :
    ∃ reqs,
      ((Transaction (fun _ => Except.ok tval) txResult followers
          [⟨ct, ut, kv⟩]).2.filter TxCall.isSubmit
        = [TxCall.transaction reqs followers])
      ∧ reqs
          = (ct.map (fun c => TransactionRequest.createTableReq [c.Namespace, c.Name]
              c.Schema (buildOpts c.toCreateTableRequest))).toList
            ++ (ut.map (fun u => TransactionRequest.commitTableReq tval u.Updates
                u.Requirements)).toList
            ++ (kv.map (fun k => TransactionRequest.setKVSidecarReq k.Key k.Value)).toList
      ∧ sentStatus (Transaction (fun _ => Except.ok tval) txResult followers
          [⟨ct, ut, kv⟩]).1 ≠ some 400 := by
  obtain ⟨h1, h2⟩ := Transaction_submits_once (fun _ => Except.ok tval) txResult
    followers [⟨ct, ut, kv⟩] _ _ (transactionLoop_single ct ut kv tval)
    (by cases ut <;> simp [TxCall.isSubmit])
  exact ⟨_, h1, rfl, h2⟩

/-- Number of operation fields set on a descriptor; a well-formed
descriptor in the sense of the spec carries exactly one operation. -/
def opCount {S PS SO PR U R : Type} (r : TxDescriptor S PS SO PR U R) : Nat :=
  (if r.CreateTable.isSome then 1 else 0)
    + (if r.UpdateTable.isSome then 1 else 0)
    + (if r.SetKVSidecar.isSome then 1 else 0)

/-- The catalog-level request `q` is the one the orchestrator constructs
for descriptor `r`: a create request built from the create descriptor, a
commit request holding the table handle obtained by loading the update
descriptor's identifier, or a sidecar request. -/
def resolvesDescriptor {S PS SO PR U R T : Type}
    (loadTable : List Str → Except Unit T) (r : TxDescriptor S PS SO PR U R)
    (q : TransactionRequest S PS SO PR U R T) : Prop :=
  (∃ ct, r.CreateTable = some ct
    ∧ q = TransactionRequest.createTableReq [ct.Namespace, ct.Name] ct.Schema
        (buildOpts ct.toCreateTableRequest))
  ∨ (∃ ut t, r.UpdateTable = some ut ∧ loadTable (identOf ut) = Except.ok t
      ∧ q = TransactionRequest.commitTableReq t ut.Updates ut.Requirements)
  ∨ (∃ k, r.SetKVSidecar = some k
      ∧ q = TransactionRequest.setKVSidecarReq k.Key k.Value)

/-- On descriptors carrying exactly one operation each, with all table
loads succeeding, the descriptor loop succeeds with one request per
descriptor in input order, and the calls it makes contain no submission. -/
theorem transactionLoop_forall₂ {S PS SO PR U R T F : Type}
    (loadTable : List Str → Except Unit T)
    (descriptors : List (TxDescriptor S PS SO PR U R))
    (hone : ∀ r ∈ descriptors, opCount r = 1)
    (hload : ∀ r ∈ descriptors, ∀ ut, r.UpdateTable = some ut →
      ∃ t, loadTable (identOf ut) = Except.ok t) :
    ∃ reqs calls,
      (transactionLoop loadTable descriptors
        = Except.ok (reqs, (calls : List (TxCall S PS SO PR U R T F))))
      ∧ List.Forall₂ (resolvesDescriptor loadTable) descriptors reqs
      ∧ calls.filter TxCall.isSubmit = [] := by
  induction descriptors with
  | nil => exact ⟨[], [], rfl, List.Forall₂.nil, rfl⟩
  | cons r rest ih =>
    obtain ⟨reqs, calls, hloop, hf2, hfl⟩ :=
      ih (fun x hx => hone x (List.mem_cons_of_mem r hx))
        (fun x hx => hload x (List.mem_cons_of_mem r hx))
    have hr1 : opCount r = 1 := hone r (List.mem_cons_self r rest)
    obtain ⟨co, uo, ko⟩ := r
    cases co with
    | some ct =>
      cases uo with
      | some ut => cases ko <;> simp [opCount] at hr1
      | none =>
        cases ko with
        | some k => simp [opCount] at hr1
        | none =>
          refine ⟨TransactionRequest.createTableReq [ct.Namespace, ct.Name] ct.Schema
              (buildOpts ct.toCreateTableRequest) :: reqs, calls, ?_, ?_, hfl⟩
          · simp [transactionLoop, descriptorStep, createReqs, sidecarReqs, hloop]
          · exact List.Forall₂.cons (Or.inl ⟨ct, rfl, rfl⟩) hf2
    | none =>
      cases uo with
      | some ut =>
        cases ko with
        | some k => simp [opCount] at hr1
        | none =>
          obtain ⟨t, ht⟩ := hload ⟨none, some ut, none⟩ (List.mem_cons_self _ rest) ut rfl
          refine ⟨TransactionRequest.commitTableReq t ut.Updates ut.Requirements :: reqs,
              TxCall.loadTable (identOf ut) :: calls, ?_, ?_, ?_⟩
          · simp [transactionLoop, descriptorStep, createReqs, sidecarReqs, ht, hloop]
          · exact List.Forall₂.cons (Or.inr (Or.inl ⟨ut, t, rfl, ht, rfl⟩)) hf2
          · simp [List.filter, TxCall.isSubmit, hfl]
      | none =>
        cases ko with
        | none => simp [opCount] at hr1
        | some k =>
          refine ⟨TransactionRequest.setKVSidecarReq k.Key k.Value :: reqs, calls, ?_, ?_, hfl⟩
          · simp [transactionLoop, descriptorStep, createReqs, sidecarReqs, hloop]
          · exact List.Forall₂.cons (Or.inr (Or.inr ⟨k, rfl, rfl⟩)) hf2

/-- C1: on a batch of descriptors each carrying exactly one operation,
with every update descriptor's table load succeeding, the orchestrator
submits exactly one `catalog.Transaction` call, whose batch holds one
request per descriptor in descriptor order, each update request built
around the table handle returned by its preceding load. -/
theorem c1_one_request_per_descriptor {S PS SO PR U R T F : Type}
    (loadTable : List Str → Except Unit T)
    (txResult : List (TransactionRequest S PS SO PR U R T) → Except Unit Unit)
    (followers : List F) (descriptors : List (TxDescriptor S PS SO PR U R))
    (hone : ∀ r ∈ descriptors, opCount r = 1)
    (hload : ∀ r ∈ descriptors, ∀ ut, r.UpdateTable = some ut →
      ∃ t, loadTable (identOf ut) = Except.ok t) :
    ∃ reqs,
      ((Transaction loadTable txResult followers descriptors).2.filter TxCall.isSubmit
        = [TxCall.transaction reqs followers])
      ∧ List.Forall₂ (resolvesDescriptor loadTable) descriptors reqs := by
  obtain ⟨reqs, calls, hloop, hf2, hfl⟩ :=
    transactionLoop_forall₂ loadTable descriptors hone hload
  obtain ⟨h1, _⟩ := Transaction_submits_once loadTable txResult followers descriptors
    reqs calls hloop hfl
  exact ⟨reqs, h1, hf2⟩

/-- C1 witness: a concrete two-descriptor batch, one create and one
update, against an always-succeeding load oracle. -/
theorem c1_one_request_per_descriptor_witness :
    ∃ reqs,
      ((Transaction (fun _ => Except.ok (0 : Nat)) (fun _ => Except.ok ())
          ([()] : List Unit)
          ([⟨some ⟨⟨['t'], (5 : Nat), "", none, none, false, none⟩, ['n']⟩, none, none⟩,
            ⟨none, some ⟨⟨[['n']], ['t']⟩, [], []⟩, none⟩] :
              List (TxDescriptor Nat Unit Unit Unit Unit Unit))).2.filter TxCall.isSubmit
        = [TxCall.transaction reqs [()]])
      ∧ List.Forall₂ (resolvesDescriptor (fun _ => Except.ok (0 : Nat)))
          [⟨some ⟨⟨['t'], (5 : Nat), "", none, none, false, none⟩, ['n']⟩, none, none⟩,
           ⟨none, some ⟨⟨[['n']], ['t']⟩, [], []⟩, none⟩] reqs :=
  c1_one_request_per_descriptor (fun _ => Except.ok (0 : Nat)) (fun _ => Except.ok ())
    [()] _ (by decide) (fun r hr ut hut => ⟨0, rfl⟩)
